import Mathlib

/-!
Shallow embedding of the score-ingestion pipeline of `arcaea.py`
(shimmeringmoon repository): text distance engine, chart resolver,
rating engine, score parser and ingestion controller, together with
proofs settling the specification claims about them.

Machine integers are modelled as `Nat`/`Int` (Python integers are
unbounded), Python floats appearing in the rating formulas as exact
rationals, fallible code as `Except`/`Option`, and the external OCR
and filesystem effects as explicit oracle functions and state records.
-/

namespace Shimmering

/-- Classic edit-distance dynamic program of `levenshtein_distance`
(src/arcaea.py lines 17-42), computed row by row: `rowAux` fills one
matrix row `dist[i][1..]` given the previous row and the value
`dist[i][0] = i` to its left. -/
def rowAux (c1 : Char) : List Char → List Nat → Nat → List Nat
  | c2 :: s2rest, diag :: up :: prevRest, left =>
    let cost := if c1 = c2 then 0 else 1
    let v := min (up + 1) (min (left + 1) (diag + cost))
    v :: rowAux c1 s2rest (up :: prevRest) v
  | _, _, _ => []

/-- One full row `dist[i]` of the edit-distance matrix: `dist[i][0] = i`
followed by the inner-loop entries. -/
def nextRow (c1 : Char) (s2 : List Char) (prevRow : List Nat) (i : Nat) : List Nat :=
  i :: rowAux c1 s2 prevRow i

/-- `levenshtein_distance(str1, str2)` (src/arcaea.py lines 17-42):
row 0 is `0, 1, ..., len(str2)`; each further row is computed from the
previous one in the same order as the Python double loop; the answer is
the last entry of the last row. -/
def levenshtein_distance (str1 str2 : String) : Nat :=
  let s2 := str2.data
  let row0 := List.range (s2.length + 1)
  let final :=
    (str1.data.foldl (fun st c1 => (nextRow c1 s2 st.1 (st.2 + 1), st.2 + 1)) (row0, 0)).1
  final.getLastD 0

/-- `closest_string(target, strings, f)` (src/arcaea.py lines 45-55).
The running minimum starts at `float("inf")`, modelled by `none`; a
candidate replaces it exactly when its distance is strictly smaller,
so ties keep the first-encountered candidate. -/
def closest_string {α : Type} (target : String) (strings : List α) (f : α → String) :
    Option α × Option Nat :=
  strings.foldl
    (fun acc s =>
      let distance := levenshtein_distance target (f s)
      match acc.2 with
      | none => (some s, some distance)
      | some m => if distance < m then (some s, some distance) else acc)
    (none, none)

/-- A catalog chart as produced by `parse_db_chart` (src/arcaea.py
lines 98-108): the `chart_constant` float is modelled as an exact
rational. -/
structure Chart where
  id : Nat
  title : String
  difficulty : String
  level : String
  note_count : Nat
  chart_constant : ℚ
  artist : String
deriving DecidableEq, Repr

/-- The failure modes of the pipeline, named after the spec's error
taxonomy: `parseError` models the `ValueError` of `int()` on
non-numeric OCR text, `emptyCatalog` the `TypeError` crash of
subscripting the `None` returned by `closest_string` on an empty
candidate list, `matchNotFound` the `IndexError` of `filtered[0]` on an
empty list, and `keyError` the (unreachable) difficulty-table miss. -/
inductive PipelineError where
  | parseError
  | emptyCatalog
  | matchNotFound
  | keyError
deriving DecidableEq, Repr

/-- The filtering pipeline inside `find_chart_by_name` (src/arcaea.py
lines 130-141), given the winning chart of the title pass: restrict the
catalog to charts sharing the winning title; when an artist hint is
present and the winning title is literally `"Quon"`, narrow to the
charts whose artist equals the artist nearest to the hint; finally keep
the charts with the parsed difficulty. -/
def resolveCandidates (all_charts : List Chart) (difficulty : String)
    (artist : Option String) (closest : Chart) : Except PipelineError (List Chart) :=
  let filtered := all_charts.filter (fun chart => chart.title = closest.title)
  let narrowed : Except PipelineError (List Chart) :=
    match artist with
    | some a =>
      if closest.title = "Quon" then
        match closest_string a filtered (fun chart => chart.artist) with
        | (some chosen_artist, _) =>
          .ok (filtered.filter (fun chart => chart.artist = chosen_artist.artist))
        | (none, _) =>
          -- models the crash on an empty candidate list; unreachable, since
          -- `filtered` always contains the winning chart itself
          .error .emptyCatalog
      else .ok filtered
    | none => .ok filtered
  match narrowed with
  | .error e => .error e
  | .ok narrowedList =>
    .ok (narrowedList.filter (fun chart => chart.difficulty = difficulty))

/-- `find_chart_by_name(name, difficulty, artist)` (src/arcaea.py lines
128-143) with the global `all_charts` passed explicitly: the closest
title match drives `resolveCandidates`, the head of the surviving list
is returned (`filtered[0]`; an empty list is the `IndexError`, modelled
as `matchNotFound`) paired with the distance of the title pass. -/
def find_chart_by_name (all_charts : List Chart) (name difficulty : String)
    (artist : Option String) : Except PipelineError (Chart × Nat) :=
  match closest_string name all_charts (fun chart => chart.title) with
  | (some closest, some distance) =>
    match resolveCandidates all_charts difficulty artist closest with
    | .error e => .error e
    | .ok survivors =>
      match survivors.head? with
      | some chart => .ok (chart, distance)
      | none => .error .matchNotFound
  | (_, _) =>
    -- `closest` is `None` exactly when the catalog is empty, and then
    -- `closest["title"]` crashes: the spec's EmptyCatalog condition
    .error .emptyCatalog

/-- `compute_grade(score)` (src/arcaea.py lines 155-169). -/
def compute_grade (score : ℤ) : String :=
  if score > 9900000 then "EX+"
  else if score > 9800000 then "EX"
  else if score > 9500000 then "AA"
  else if score > 9200000 then "A"
  else if score > 8900000 then "B"
  else if score > 8600000 then "C"
  else "D"

/-- `compute_play_rating(chart, score)` (src/arcaea.py lines 172-181),
as a function of the chart constant; the score argument is extended
from the integers to `ℚ` so that the spec's left-limit statements at
the two breakpoints can be expressed. -/
def compute_play_rating (chart_constant : ℚ) (score : ℚ) : ℚ :=
  if score ≥ 10000000 then chart_constant + 2
  else if score ≥ 9800000 then chart_constant + (1 + (score - 9800000) / 200000)
  else chart_constant + (score - 9500000) / 100000

/-- The play-rating formula exactly as the spec words it: chart
constant plus a piecewise bonus. -/
def bonus_spec (score : ℚ) : ℚ :=
  if score ≥ 10000000 then 2
  else if score ≥ 9800000 then 1 + (score - 9800000) / 200000
  else (score - 9500000) / 100000

/-- Spec-worded play rating: `chart_constant + bonus`. -/
def play_rating_spec (chart_constant : ℚ) (score : ℚ) : ℚ :=
  chart_constant + bonus_spec score

/-- The pure-memory fragment of `print_scores` (src/arcaea.py lines
195-198): the rendered `pm_string` is empty unless the score exceeds
ten million, in which case it shows `score - 10000000 - note_count`. -/
def pm_string (chart : Chart) (score : Nat) : String :=
  if score > 10000000 then
    "(" ++ toString ((score : ℤ) - 10000000 - (chart.note_count : ℤ)) ++ ")"
  else ""

/-- Python `int(...)` applied to the stripped OCR text of a digit-only
region (src/arcaea.py lines 245, 249-252): succeeds exactly on a
non-empty all-digit string; the `none` case is the `ValueError` the
spec calls ParseError. -/
def parse_int (s : String) : Option Nat :=
  if s.data ≠ [] ∧ s.data.all (fun c => c.isDigit) then
    some (s.data.foldl (fun acc c => 10 * acc + (c.toNat - 48)) 0)
  else none

/-- `unique_characters(strings)` (src/arcaea.py lines 112-118): every
character appearing in some input string, once each.  Python iterates a
`set` in an unspecified order; this model fixes first-occurrence order,
which only affects the text of the whitelist handed to the OCR
oracle. -/
def unique_characters (strings : List String) : String :=
  String.mk ((strings.foldl (fun acc s => acc ++ s.data) []).dedup)

/-- The `tesseract_nums_only` configuration string (src/arcaea.py line 94). -/
def tesseract_nums_only : String :=
  "-c tessedit_char_whitelist=0123456789"

/-- The `chart_whitelist` / `tesseract_song_name` configuration string
(src/arcaea.py lines 123-125), from the titles of the loaded catalog. -/
def tesseract_song_name (all_charts : List Chart) : String :=
  let chart_whitelist :=
    (unique_characters (all_charts.map (fun chart => chart.title))).replace "\"" "\\\""
  "-c tessedit_char_whitelist=\"" ++ chart_whitelist ++ "\""

/-- The structured tuple returned by `parse_score_image`
(src/arcaea.py lines 246 and 264): the spec's ParsedResult. -/
structure ParsedResult where
  name : String
  score : Nat
  difficulty : String
  artist : Option String
  max_recall : Option Nat
deriving DecidableEq, Repr

/-- An OCR oracle abstracting `tesseract_region` (src/arcaea.py lines
75-83): image path, crop rectangle `[x, y, w, h]` and extra recognizer
configuration determine the stripped transcription.  The
page-segmentation mode is the constant 13 at every call site and is
omitted. -/
def Ocr : Type := String → List Nat → String → String

/-- The fixed lookup table mapping a difficulty name to its tag
(src/arcaea.py lines 257-263); `none` models the impossible
`KeyError`. -/
def difficulty_tag : String → Option String
  | "PAST" => some "PST"
  | "PRESENT" => some "PRS"
  | "FUTURE" => some "FTR"
  | "ETERNAL" => some "ETR"
  | "BEYOND" => some "BYD"
  | _ => none

/-- `parse_score_image(image)` (src/arcaea.py lines 237-264) with the
OCR effect and the global catalog passed explicitly.  The layout test
compares the top-left region's text against the two reference strings;
the song-select branch fixes difficulty `"FTR"` and leaves artist and
max recall `None`; the result branch reads score, max recall and the
difficulty label, nearest-matched among the five difficulty names. -/
def parse_score_image (ocr : Ocr) (all_charts : List Chart) (image : String) :
    Except PipelineError ParsedResult :=
  let topleft_text := ocr image [0, 0, 320, 75] ""
  let is_song_select :=
    levenshtein_distance topleft_text "Select a Song" <
      levenshtein_distance topleft_text "Result"
  if is_song_select then
    let name := ocr image [10, 360, 1100, 80] (tesseract_song_name all_charts)
    match parse_int (ocr image [0, 260, 320, 60] tesseract_nums_only) with
    | none => .error .parseError
    | some score => .ok ⟨name, score, "FTR", none, none⟩
  else
    let name := ocr image [300, 320, 1200, 110] (tesseract_song_name all_charts)
    match parse_int (ocr image [850, 675, 470, 120] tesseract_nums_only) with
    | none => .error .parseError
    | some score =>
      match parse_int (ocr image [380, 590, 130, 50] tesseract_nums_only) with
      | none => .error .parseError
      | some max_recall =>
        let raw_difficulty := ocr image [150, 540, 200, 40] ""
        match closest_string raw_difficulty
            ["PAST", "PRESENT", "FUTURE", "ETERNAL", "BEYOND"] (fun s => s) with
        | (some difficulty_name, _) =>
          match difficulty_tag difficulty_name with
          | some difficulty => .ok ⟨name, score, difficulty, none, some max_recall⟩
          | none => .error .keyError
        | (none, _) => .error .emptyCatalog

/-- `os.path.basename`: the final path component. -/
def base_name (path : String) : String :=
  String.mk ((path.data.reverse.takeWhile (fun c => c ≠ '/')).reverse)

/-- The extension part of `os.path.splitext(os.path.basename(path))`
(src/arcaea.py line 301): the suffix from the last dot of the base
name, where leading dots of the base name never start an extension. -/
def splitext_extension (path : String) : String :=
  let cs := (base_name path).data
  let lead := (cs.takeWhile (fun c => c = '.')).length
  let rest := cs.drop lead
  if rest.contains '.' then
    String.mk ('.' :: (rest.reverse.takeWhile (fun c => c ≠ '.')).reverse)
  else ""

/-- The ambient context of one `add_scores` run: the loaded catalog,
the OCR oracle, `os.path.exists` on the input paths, `ARCAEA_DATA_DIR`
and the `current_timestamp()` value (time is external). -/
structure Env where
  catalog : List Chart
  ocr : Ocr
  fileExists : String → Bool
  dataDir : String
  timestamp : String

/-- A persisted score row (the `INSERT INTO scores` of src/arcaea.py
lines 284-291). -/
structure ScoreRow where
  id : Nat
  chart_id : Nat
  user_id : Nat
  parsed_name : String
  max_recall : Option Nat
  score : Nat
deriving DecidableEq, Repr

/-- The observable state threaded through `add_scores` (src/arcaea.py
lines 269-317): the scores table with its autoincrement counter, the
files copied into the quarantine directory (source, destination), the
diagnostics printed so far, and the accepted `added_scores` list. -/
structure RunState where
  scores : List ScoreRow
  nextId : Nat
  copies : List (String × String)
  logs : List String
  added : List (Chart × Nat × Nat)
deriving Repr

/-- The state at the start of a run: empty tables, ids from 1. -/
def initialRunState : RunState :=
  { scores := [], nextId := 1, copies := [], logs := [], added := [] }

/-- The quarantine destination path
`f"{image_dir}/{timestamp}-{user_id}{extension}"` (src/arcaea.py lines
297-303). -/
def quarantine_destination (env : Env) (user_id : Nat) (input_file : String) : String :=
  env.dataDir ++ "/images" ++ "/" ++ env.timestamp ++ "-" ++ toString user_id ++
    splitext_extension input_file

/-- The diagnostic printed on the confused path (src/arcaea.py lines
307-314). -/
def confused_message (pr : ParsedResult) (distance : Nat) (destination : String) : String :=
  let artist_string :=
    match pr.artist with
    | none => ""
    | some a => " by " ++ a
  "Couldn't identify \"" ++ pr.name ++ " (" ++ pr.difficulty ++ ")" ++ artist_string ++
    "\" as a chart title (distance=" ++ toString distance ++ "); Saved file to " ++
    destination ++ "."

/-- The body of the `for input_file in input_files` loop of
`add_scores` (src/arcaea.py lines 273-315): skip missing files with a
diagnostic; otherwise parse, resolve, and either insert a score row
(distance < 8) or copy the image to quarantine and print the confused
diagnostic.  An uncaught Python exception is an `Except.error`. -/
def add_scores_step (env : Env) (user_id : Nat) (st : RunState) (input_file : String) :
    Except PipelineError RunState :=
  if env.fileExists input_file = false then
    .ok { st with logs := st.logs ++ ["Skipping non-existent " ++ input_file] }
  else
    match parse_score_image env.ocr env.catalog input_file with
    | .error e => .error e
    | .ok pr =>
      match find_chart_by_name env.catalog pr.name pr.difficulty pr.artist with
      | .error e => .error e
      | .ok (chart, distance) =>
        if distance < 8 then
          .ok { st with
                scores := st.scores ++
                  [⟨st.nextId, chart.id, user_id, pr.name, pr.max_recall, pr.score⟩],
                nextId := st.nextId + 1,
                added := st.added ++ [(chart, st.nextId, pr.score)] }
        else
          let destination := quarantine_destination env user_id input_file
          .ok { st with
                copies := st.copies ++ [(input_file, destination)],
                logs := st.logs ++ [confused_message pr distance destination] }

/-- The `add_scores` loop: process the files in order; an uncaught
exception aborts the batch, carrying the state already committed (each
accepted score was committed immediately, so it survives the crash). -/
def add_scores_run (env : Env) (user_id : Nat) :
    List String → RunState → Except (PipelineError × RunState) RunState
  | [], st => .ok st
  | f :: fs, st =>
    match add_scores_step env user_id st f with
    | .ok st2 => add_scores_run env user_id fs st2
    | .error e => .error (e, st)

/-- `add_scores(discord_id, input_files)` (src/arcaea.py lines
269-317), with the user id already resolved by the external user
collaborator (`get_user_id`). -/
def add_scores (env : Env) (user_id : Nat) (input_files : List String) :
    Except (PipelineError × RunState) RunState :=
  add_scores_run env user_id input_files initialRunState

/-! ## Helper lemmas about the text distance engine -/

/-- The loop body of `closest_string`, named for the proofs below. -/
def closestStep {α : Type} (target : String) (f : α → String)
    (acc : Option α × Option Nat) (s : α) : Option α × Option Nat :=
  let distance := levenshtein_distance target (f s)
  match acc.2 with
  | none => (some s, some distance)
  | some m => if distance < m then (some s, some distance) else acc

lemma closest_string_eq_foldl {α : Type} (target : String) (l : List α) (f : α → String) :
    closest_string target l f = l.foldl (closestStep target f) (none, none) := rfl

lemma closestStep_none {α : Type} (target : String) (f : α → String) (x : α) :
    closestStep target f (none, none) x = (some x, some (levenshtein_distance target (f x))) :=
  rfl

lemma closestStep_some {α : Type} (target : String) (f : α → String) (c : α) (dc : Nat) (x : α) :
    closestStep target f (some c, some dc) x =
      if levenshtein_distance target (f x) < dc
      then (some x, some (levenshtein_distance target (f x)))
      else (some c, some dc) := rfl

/-- Running the scan from an accumulator holding candidate `c` yields a
candidate of minimal distance among `c` and the scanned list; when the
winner comes from the list it beats `c` strictly and beats every list
element before it strictly (first-encountered-wins). -/
lemma closest_foldl_spec {α : Type} (target : String) (f : α → String) :
    ∀ (l : List α) (c : α),
      ∃ m,
        l.foldl (closestStep target f)
            (some c, some (levenshtein_distance target (f c))) =
          (some m, some (levenshtein_distance target (f m))) ∧
        levenshtein_distance target (f m) ≤ levenshtein_distance target (f c) ∧
        (∀ y ∈ l, levenshtein_distance target (f m) ≤ levenshtein_distance target (f y)) ∧
        (m = c ∨
          (levenshtein_distance target (f m) < levenshtein_distance target (f c) ∧
            ∃ i, ∃ h : i < l.length, m = l.get ⟨i, h⟩ ∧
              ∀ y ∈ l.take i,
                levenshtein_distance target (f m) < levenshtein_distance target (f y)))
  | [], c => ⟨c, rfl, le_refl _, by simp, Or.inl rfl⟩
  | x :: xs, c => by
    rw [List.foldl_cons, closestStep_some]
    by_cases hx : levenshtein_distance target (f x) < levenshtein_distance target (f c)
    · rw [if_pos hx]
      obtain ⟨m, hfold, hmx, hall, hbr⟩ := closest_foldl_spec target f xs x
      refine ⟨m, hfold, le_of_lt (lt_of_le_of_lt hmx hx), ?_, ?_⟩
      · intro y hy
        rcases List.mem_cons.mp hy with hy | hy
        · exact hy ▸ hmx
        · exact hall y hy
      · rcases hbr with hbr | ⟨hlt, i, hi, hm, htake⟩
        · refine Or.inr ⟨hbr ▸ hx, 0, by simp, by simpa using hbr, ?_⟩
          simp
        · refine Or.inr ⟨lt_trans hlt hx, i + 1, by simpa using Nat.succ_lt_succ hi, ?_, ?_⟩
          · simpa using hm
          · intro y hy
            rw [List.take_succ_cons] at hy
            rcases List.mem_cons.mp hy with hy | hy
            · exact hy ▸ hlt
            · exact htake y hy
    · rw [if_neg hx]
      obtain ⟨m, hfold, hmc, hall, hbr⟩ := closest_foldl_spec target f xs c
      have hcx : levenshtein_distance target (f c) ≤ levenshtein_distance target (f x) :=
        le_of_not_lt hx
      refine ⟨m, hfold, hmc, ?_, ?_⟩
      · intro y hy
        rcases List.mem_cons.mp hy with hy | hy
        · exact hy ▸ le_trans hmc hcx
        · exact hall y hy
      · rcases hbr with hbr | ⟨hlt, i, hi, hm, htake⟩
        · exact Or.inl hbr
        · refine Or.inr ⟨hlt, i + 1, by simpa using Nat.succ_lt_succ hi, ?_, ?_⟩
          · simpa using hm
          · intro y hy
            rw [List.take_succ_cons] at hy
            rcases List.mem_cons.mp hy with hy | hy
            · exact hy ▸ lt_of_lt_of_le hlt hcx
            · exact htake y hy

/-! ## Claim theorems -/

/-- C4.  `closest_string` fails (its candidate component is the `None`
that the resolver turns into the EmptyCatalog condition) exactly when
the candidate list is empty; on a non-empty list it always returns one
of the candidates, and it is a total function, so it never fails on
algorithmic grounds. -/
theorem c4_closest_fails_iff_empty {α : Type} (target : String) (l : List α)
    (f : α → String) :
    ((closest_string target l f).1 = none ↔ l = []) ∧
    (∀ c, (closest_string target l f).1 = some c → c ∈ l) := by
  rcases l with - | ⟨x, xs⟩
  · exact ⟨by simp [closest_string], by simp [closest_string]⟩
  · rw [closest_string_eq_foldl, List.foldl_cons, closestStep_none]
    obtain ⟨m, hfold, -, -, hbr⟩ := closest_foldl_spec target f xs x
    rw [hfold]
    constructor
    · simp
    · intro c hc
      have hcm : c = m := by simpa using hc.symm
      subst hcm
      rcases hbr with hbr | ⟨-, i, hi, hm, -⟩
      · exact hbr ▸ List.mem_cons_self x xs
      · exact List.mem_cons_of_mem x (hm ▸ List.get_mem xs i hi)

/-- C4 witness: the theorem applied to the one-candidate list `["y"]`. -/
theorem c4_witness :
    ¬((closest_string "x" ["y"] (fun s => s)).1 = none) ∧ ("y" : String) ∈ ["y"] := by
  have h := c4_closest_fails_iff_empty "x" ["y"] (fun s => s)
  exact ⟨fun hn => by simpa using h.1.mp hn, h.2 "y" (by decide)⟩

/-- C9.  On a non-empty candidate list, `closest_string` returns the
candidate at some position `i` attaining the minimum edit distance to
the target over all candidates, with every strictly earlier candidate
at strictly larger distance (so ties are resolved in favour of the
first-encountered candidate), paired with that minimal distance; and on
a one-element list it always returns that single candidate, whatever
its distance. -/
theorem c9_closest_min {α : Type} (target : String) (f : α → String) (l : List α)
    (hne : l ≠ []) :
    (∃ i, ∃ h : i < l.length,
      closest_string target l f =
        (some (l.get ⟨i, h⟩), some (levenshtein_distance target (f (l.get ⟨i, h⟩)))) ∧
      (∀ y ∈ l,
        levenshtein_distance target (f (l.get ⟨i, h⟩)) ≤ levenshtein_distance target (f y)) ∧
      (∀ y ∈ l.take i,
        levenshtein_distance target (f (l.get ⟨i, h⟩)) < levenshtein_distance target (f y))) ∧
    (∀ x : α, closest_string target [x] f = (some x, some (levenshtein_distance target (f x)))) := by
  constructor
  · rcases l with - | ⟨x, xs⟩
    · exact absurd rfl hne
    · rw [closest_string_eq_foldl, List.foldl_cons, closestStep_none]
      obtain ⟨m, hfold, hmx, hall, hbr⟩ := closest_foldl_spec target f xs x
      rcases hbr with hbr | ⟨hlt, i, hi, hm, htake⟩
      · subst hbr
        refine ⟨0, by simp, by simpa using hfold, ?_, by simp⟩
        intro y hy
        rcases List.mem_cons.mp hy with hy | hy
        · exact hy ▸ le_refl _
        · exact hall y hy
      · refine ⟨i + 1, by simpa using Nat.succ_lt_succ hi, ?_, ?_, ?_⟩
        · rw [hfold, hm]
          simp
        · intro y hy
          have hgm : (x :: xs).get ⟨i + 1, by simpa using Nat.succ_lt_succ hi⟩ = m := by
            simpa using hm.symm
          rw [hgm]
          rcases List.mem_cons.mp hy with hy | hy
          · exact hy ▸ le_of_lt hlt
          · exact hall y hy
        · intro y hy
          have hgm : (x :: xs).get ⟨i + 1, by simpa using Nat.succ_lt_succ hi⟩ = m := by
            simpa using hm.symm
          rw [hgm, List.take_succ_cons] at *
          rcases List.mem_cons.mp hy with hy | hy
          · exact hy ▸ hlt
          · exact htake y hy
  · intro x
    rfl

/-- C9 witness: the theorem applied to the one-element list `["ab"]`. -/
theorem c9_witness : closest_string "ab" ["ab"] (fun s => s) = (some "ab", some 0) := by
  have h := (c9_closest_min "ab" (fun s => s) ["ab"] (by decide)).2 "ab"
  have h0 : levenshtein_distance "ab" "ab" = 0 := by decide
  rw [h0] at h
  exact h

/-- C7.  `compute_grade` uses strict greater-than boundaries: each
letter is returned exactly on its half-open score interval, boundary
values fall to the lower grade, and in particular 9,900,001 grades
`"EX+"` while 9,900,000 grades `"EX"`. -/
theorem c7_grade_boundaries :
    (∀ score : ℤ,
      (compute_grade score = "EX+" ↔ 9900000 < score) ∧
      (compute_grade score = "EX" ↔ 9800000 < score ∧ score ≤ 9900000) ∧
      (compute_grade score = "AA" ↔ 9500000 < score ∧ score ≤ 9800000) ∧
      (compute_grade score = "A" ↔ 9200000 < score ∧ score ≤ 9500000) ∧
      (compute_grade score = "B" ↔ 8900000 < score ∧ score ≤ 9200000) ∧
      (compute_grade score = "C" ↔ 8600000 < score ∧ score ≤ 8900000) ∧
      (compute_grade score = "D" ↔ score ≤ 8600000)) ∧
    compute_grade 9900001 = "EX+" ∧ compute_grade 9900000 = "EX" := by
  refine ⟨fun score => ?_, by decide, by decide⟩
  unfold compute_grade
  split_ifs <;> refine ⟨?_, ?_, ?_, ?_, ?_, ?_, ?_⟩ <;>
    simp only [String.reduceEq, false_iff, true_iff, iff_false, iff_true,
      not_and, not_le, not_lt] <;> omega

/-- C8.  The rendered pure-memory bonus is non-empty exactly when the
score strictly exceeds ten million, in which case it shows
`score - 10000000 - note_count`; at exactly ten million, and below, it
is the empty string, i.e. absent from the report row. -/
theorem c8_pure_memory_bonus :
    (∀ (chart : Chart) (score : Nat),
      (pm_string chart score ≠ "" ↔ 10000000 < score) ∧
      (10000000 < score →
        pm_string chart score =
          "(" ++ toString ((score : ℤ) - 10000000 - (chart.note_count : ℤ)) ++ ")")) ∧
    (∀ chart : Chart, pm_string chart 10000000 = "") := by
  constructor
  · intro chart score
    constructor
    · unfold pm_string
      split_ifs with h
      · simp only [iff_true, h]
        intro habs
        have hlen := congrArg String.length habs
        simp [String.length_append] at hlen
        exact absurd hlen.1.1 (by decide)
      · simpa using h
    · intro h
      unfold pm_string
      rw [if_pos h]
  · intro chart
    unfold pm_string
    norm_num

/-- C8 witness: the theorem applied to a 900-note chart at score
10,000,003 (bonus 3 − 900 = −897) and at exactly 10,000,000. -/
theorem c8_witness :
    pm_string ⟨1, "t", "FTR", "10", 900, 10, "a"⟩ 10000003 = "(-897)" ∧
    pm_string ⟨1, "t", "FTR", "10", 900, 10, "a"⟩ 10000000 = "" := by
  constructor
  · have h := (c8_pure_memory_bonus.1 ⟨1, "t", "FTR", "10", 900, 10, "a"⟩ 10000003).2
      (by norm_num)
    rw [h]
    decide
  · exact c8_pure_memory_bonus.2 ⟨1, "t", "FTR", "10", 900, 10, "a"⟩

/-! ## Helper lemmas for the play-rating limits -/

/-- Left limit of the play rating at the 9,800,000 breakpoint: below
that score the formula is the affine map `cc + (s − 9500000)/100000`,
whose limit is `cc + 3`. -/
lemma play_rating_tendsto_left_98 (cc : ℚ) :
    Filter.Tendsto (compute_play_rating cc)
      (nhdsWithin 9800000 (Set.Iio 9800000)) (nhds (cc + 3)) := by
  have hcont : Continuous fun s : ℚ => cc + (s - 9500000) / 100000 :=
    continuous_const.add ((continuous_id.sub continuous_const).div_const _)
  have htendsto : Filter.Tendsto (fun s : ℚ => cc + (s - 9500000) / 100000)
      (nhdsWithin 9800000 (Set.Iio 9800000)) (nhds (cc + 3)) := by
    have h1 : Filter.Tendsto (fun s : ℚ => cc + (s - 9500000) / 100000)
        (nhdsWithin 9800000 (Set.Iio 9800000))
        (nhds (cc + ((9800000 : ℚ) - 9500000) / 100000)) :=
      (hcont.tendsto (9800000 : ℚ)).mono_left nhdsWithin_le_nhds
    convert h1 using 2
    norm_num
  refine htendsto.congr' ?_
  filter_upwards [eventually_mem_nhdsWithin] with s hs
  have hs1 : ¬(s ≥ (10000000 : ℚ)) := by
    simp only [Set.mem_Iio] at hs
    linarith
  have hs2 : ¬(s ≥ (9800000 : ℚ)) := by
    simp only [Set.mem_Iio] at hs
    linarith
  rw [compute_play_rating, if_neg hs1, if_neg hs2]

/-- Left limit of the play rating at the 10,000,000 breakpoint: on the
interval between the breakpoints the formula is
`cc + (1 + (s − 9800000)/200000)`, whose limit is `cc + 2`. -/
lemma play_rating_tendsto_left_100 (cc : ℚ) :
    Filter.Tendsto (compute_play_rating cc)
      (nhdsWithin 10000000 (Set.Iio 10000000)) (nhds (cc + 2)) := by
  have hcont : Continuous fun s : ℚ => cc + (1 + (s - 9800000) / 200000) :=
    continuous_const.add
      (continuous_const.add ((continuous_id.sub continuous_const).div_const _))
  have htendsto : Filter.Tendsto (fun s : ℚ => cc + (1 + (s - 9800000) / 200000))
      (nhdsWithin 10000000 (Set.Iio 10000000)) (nhds (cc + 2)) := by
    have h1 : Filter.Tendsto (fun s : ℚ => cc + (1 + (s - 9800000) / 200000))
        (nhdsWithin 10000000 (Set.Iio 10000000))
        (nhds (cc + (1 + ((10000000 : ℚ) - 9800000) / 200000))) :=
      (hcont.tendsto (10000000 : ℚ)).mono_left nhdsWithin_le_nhds
    convert h1 using 2
    norm_num
  refine htendsto.congr' ?_
  have hmem : Set.Ioo (9800000 : ℚ) 10000000 ∈
      nhdsWithin (10000000 : ℚ) (Set.Iio 10000000) :=
    Ioo_mem_nhdsWithin_Iio (by constructor <;> norm_num)
  filter_upwards [hmem] with s hs
  have hs1 : ¬(s ≥ (10000000 : ℚ)) := by
    have := hs.2
    linarith
  have hs2 : s ≥ (9800000 : ℚ) := le_of_lt hs.1
  rw [compute_play_rating, if_neg hs1, if_pos hs2]

/-- C1 counterexample: the claim asserts the left-limit of the play
rating at score 9,800,000 equals `chart_constant + 1`; at chart
constant 0 the left-limit is 3, not 1, so the piecewise formula is not
continuous there (the code divides by 100,000 where a continuous
formula would divide by 300,000). -/
theorem c1_counterexample :
    ¬ Filter.Tendsto (compute_play_rating 0)
      (nhdsWithin 9800000 (Set.Iio 9800000)) (nhds ((0 : ℚ) + 1)) := by
  intro h
  have h3 := play_rating_tendsto_left_98 0
  have := tendsto_nhds_unique h h3
  norm_num at this

/-- C1 (amended).  The play rating is the chart constant plus the
spec's piecewise bonus, and its value at each breakpoint is the claimed
one; the formula is continuous at 10,000,000 (left-limit `cc + 2`,
equal to the value there), but at 9,800,000 the left-limit is `cc + 3`
while the value is `cc + 1`, so the formula is discontinuous there and
the claimed left-limit `cc + 1` is wrong. -/
theorem c1_play_rating_breakpoints :
    ∀ cc : ℚ,
      (∀ s : ℚ, compute_play_rating cc s = play_rating_spec cc s) ∧
      compute_play_rating cc 10000000 = cc + 2 ∧
      Filter.Tendsto (compute_play_rating cc)
        (nhdsWithin 10000000 (Set.Iio 10000000)) (nhds (cc + 2)) ∧
      compute_play_rating cc 9800000 = cc + 1 ∧
      Filter.Tendsto (compute_play_rating cc)
        (nhdsWithin 9800000 (Set.Iio 9800000)) (nhds (cc + 3)) ∧
      ¬ Filter.Tendsto (compute_play_rating cc)
        (nhdsWithin 9800000 (Set.Iio 9800000)) (nhds (cc + 1)) := by
  intro cc
  refine ⟨?_, ?_, play_rating_tendsto_left_100 cc, ?_, play_rating_tendsto_left_98 cc, ?_⟩
  · intro s
    unfold compute_play_rating play_rating_spec bonus_spec
    split_ifs <;> ring
  · rw [compute_play_rating, if_pos (by norm_num)]
  · rw [compute_play_rating, if_neg (by norm_num), if_pos (by norm_num)]
    norm_num
  · intro h
    have := tendsto_nhds_unique h (play_rating_tendsto_left_98 cc)
    have h13 : (1 : ℚ) = 3 := by
      have := add_left_cancel this
      exact this
    norm_num at h13

/-- C10.  Both layout branches of the score parser return a `None`
artist hint, so every successfully parsed image carries `artist = none`
and the chart resolver invocation made by the ingestion controller on
its behalf coincides with an invocation at `artist = none`: the
artist-disambiguation branch is never taken in an ingestion run. -/
theorem c10_artist_always_none :
    ∀ (ocr : Ocr) (all_charts : List Chart) (image : String) (pr : ParsedResult),
      parse_score_image ocr all_charts image = .ok pr →
      pr.artist = none ∧
      ∀ difficulty : String,
        find_chart_by_name all_charts pr.name difficulty pr.artist =
          find_chart_by_name all_charts pr.name difficulty none := by
  intro ocr all_charts image pr h
  have ha : pr.artist = none := by
    simp only [parse_score_image] at h
    by_cases hsel :
        levenshtein_distance (ocr image [0, 0, 320, 75] "") "Select a Song" <
          levenshtein_distance (ocr image [0, 0, 320, 75] "") "Result"
    · rw [if_pos hsel] at h
      rcases hpi : parse_int (ocr image [0, 260, 320, 60] tesseract_nums_only) with - | score
      · rw [hpi] at h
        exact Except.noConfusion h
      · rw [hpi] at h
        cases h
        rfl
    · rw [if_neg hsel] at h
      rcases hpi1 : parse_int (ocr image [850, 675, 470, 120] tesseract_nums_only)
        with - | score
      · rw [hpi1] at h
        exact Except.noConfusion h
      · rw [hpi1] at h
        rcases hpi2 : parse_int (ocr image [380, 590, 130, 50] tesseract_nums_only)
          with - | max_recall
        · rw [hpi2] at h
          exact Except.noConfusion h
        · rw [hpi2] at h
          rcases hcs : closest_string (ocr image [150, 540, 200, 40] "")
              ["PAST", "PRESENT", "FUTURE", "ETERNAL", "BEYOND"] (fun s => s)
            with ⟨- | difficulty_name, d⟩
          · rw [hcs] at h
            exact Except.noConfusion h
          · rw [hcs] at h
            simp only [] at h
            rcases hdt : difficulty_tag difficulty_name with - | tag
            · rw [hdt] at h
              exact Except.noConfusion h
            · rw [hdt] at h
              cases h
              rfl
  exact ⟨ha, fun difficulty => by rw [ha]⟩

/-- A concrete OCR oracle whose top-left region reads as a song-select
screen and whose other regions read `"123"`. -/
def songSelectOcr : Ocr :=
  fun _ region _ => if region = [0, 0, 320, 75] then "Select a Song" else "123"

set_option maxRecDepth 8000 in
/-- C10 witness: the theorem applied to the concrete song-select
oracle, whose parse succeeds with title `"123"` and score 123. -/
theorem c10_witness :
    (⟨"123", 123, "FTR", none, none⟩ : ParsedResult).artist = none ∧
    ∀ difficulty : String,
      find_chart_by_name [] "123" difficulty
          (⟨"123", 123, "FTR", none, none⟩ : ParsedResult).artist =
        find_chart_by_name [] "123" difficulty none :=
  c10_artist_always_none songSelectOcr [] "img.png"
    ⟨"123", 123, "FTR", none, none⟩ rfl

/-- C5 counterexample: the claim quantifies over any duplicated title
("e.g. Quon"), but the resolver's artist branch is hard-coded to the
literal title `"Quon"`.  For a catalog of two charts titled `"AAAA"` by
artists `"X"` and `"Y"`, resolving `"AAAA"` with artist hint `"Y"`
returns the first chart (artist `"X"`), although the second chart's
artist is strictly nearer to the hint. -/
theorem c5_counterexample :
    find_chart_by_name
        [⟨1, "AAAA", "FTR", "10", 900, 10, "X"⟩, ⟨2, "AAAA", "FTR", "10", 901, 10, "Y"⟩]
        "AAAA" "FTR" (some "Y") =
      .ok (⟨1, "AAAA", "FTR", "10", 900, 10, "X"⟩, 0) ∧
    levenshtein_distance "Y" "Y" < levenshtein_distance "Y" "X" := by
  constructor
  · rfl
  · decide

/-- C5 (amended).  The artist-based disambiguation applies only to the
literal title `"Quon"` (the one known duplicated title): for a catalog
of two `"Quon"` charts by different artists, both carrying the parsed
difficulty, resolving `"Quon"` with a non-null artist hint returns the
chart whose artist is nearest by edit distance to the hint (the first
one on a tie), not the other chart. -/
theorem c5_quon_disambiguation :
    ∀ (hint d lv1 lv2 a1 a2 : String) (id1 id2 n1 n2 : Nat) (cc1 cc2 : ℚ),
      a1 ≠ a2 →
      (levenshtein_distance hint a2 < levenshtein_distance hint a1 →
        find_chart_by_name
            [⟨id1, "Quon", d, lv1, n1, cc1, a1⟩, ⟨id2, "Quon", d, lv2, n2, cc2, a2⟩]
            "Quon" d (some hint) =
          .ok (⟨id2, "Quon", d, lv2, n2, cc2, a2⟩, 0)) ∧
      (levenshtein_distance hint a1 ≤ levenshtein_distance hint a2 →
        find_chart_by_name
            [⟨id1, "Quon", d, lv1, n1, cc1, a1⟩, ⟨id2, "Quon", d, lv2, n2, cc2, a2⟩]
            "Quon" d (some hint) =
          .ok (⟨id1, "Quon", d, lv1, n1, cc1, a1⟩, 0)) := by
  intro hint d lv1 lv2 a1 a2 id1 id2 n1 n2 cc1 cc2 hne
  have hlev0 : levenshtein_distance "Quon" "Quon" = 0 := by decide
  constructor
  · intro hcmp
    simp only [find_chart_by_name, resolveCandidates, closest_string_eq_foldl,
      List.foldl_cons, List.foldl_nil, closestStep_none, closestStep_some,
      List.filter_cons, List.filter_nil, hlev0, lt_self_iff_false, if_false,
      String.reduceEq, decide_True, decide_False, if_true, if_pos hcmp, hne,
      Bool.false_eq_true, eq_self_iff_true, List.head?]
  · intro hcmp
    have hnotlt : ¬(levenshtein_distance hint a2 < levenshtein_distance hint a1) :=
      not_lt_of_ge hcmp
    simp only [find_chart_by_name, resolveCandidates, closest_string_eq_foldl,
      List.foldl_cons, List.foldl_nil, closestStep_none, closestStep_some,
      List.filter_cons, List.filter_nil, hlev0, lt_self_iff_false, if_false,
      String.reduceEq, decide_True, decide_False, if_true, if_neg hnotlt, hne.symm,
      Bool.false_eq_true, eq_self_iff_true, List.head?]

set_option maxRecDepth 8000 in
/-- C5 witness: two `"Quon"` charts by `"Feryquitous"` and `"Aoi"`;
the hint `"Aoi"` selects the second chart. -/
theorem c5_witness :
    find_chart_by_name
        [⟨1, "Quon", "FTR", "10", 900, 10, "Feryquitous"⟩,
         ⟨2, "Quon", "FTR", "10", 901, 10, "Aoi"⟩]
        "Quon" "FTR" (some "Aoi") =
      .ok (⟨2, "Quon", "FTR", "10", 901, 10, "Aoi"⟩, 0) :=
  (c5_quon_disambiguation "Aoi" "FTR" "10" "10" "Feryquitous" "Aoi" 1 2 900 901 10 10
    (by decide)).1 (by decide)

/-- `resolveCandidates` never fails with `matchNotFound`: its only
failure is the (unreachable) empty-candidate crash. -/
lemma resolveCandidates_ne_matchNotFound (catalog : List Chart) (difficulty : String)
    (artist : Option String) (c : Chart) :
    resolveCandidates catalog difficulty artist c ≠ .error .matchNotFound := by
  unfold resolveCandidates
  rcases artist with - | a
  · simp
  · by_cases hq : c.title = "Quon"
    · simp only [if_pos hq]
      rcases hcs : closest_string a (catalog.filter (fun chart => chart.title = c.title))
          (fun chart => chart.artist) with ⟨oc, od⟩
      rcases oc with - | chosen <;> simp [hcs]
    · simp [if_neg hq]

/-- C6 counterexample: with a catalog of two `"Quon"` charts — FTR by
`"ArtistA"`, BYD by `"ArtistB"` — resolving title `"Quon"`, difficulty
`"BYD"`, artist hint `"ArtistA"` fails with MatchNotFound although a
catalog entry sharing the winning title does survive the difficulty
filter: the artist narrowing (which runs before the difficulty filter)
discarded it, refuting the claim's "exactly when no catalog entry
sharing the winning title survives the difficulty filter". -/
theorem c6_counterexample :
    closest_string "Quon"
        ([⟨1, "Quon", "FTR", "10", 900, 10, "ArtistA"⟩,
          ⟨2, "Quon", "BYD", "11", 1000, 11, "ArtistB"⟩] : List Chart)
        (fun ch => ch.title) =
      (some ⟨1, "Quon", "FTR", "10", 900, 10, "ArtistA"⟩, some 0) ∧
    find_chart_by_name
        [⟨1, "Quon", "FTR", "10", 900, 10, "ArtistA"⟩,
         ⟨2, "Quon", "BYD", "11", 1000, 11, "ArtistB"⟩]
        "Quon" "BYD" (some "ArtistA") = .error .matchNotFound ∧
    List.filter (fun ch => decide (ch.title = "Quon" ∧ ch.difficulty = "BYD"))
        ([⟨1, "Quon", "FTR", "10", 900, 10, "ArtistA"⟩,
          ⟨2, "Quon", "BYD", "11", 1000, 11, "ArtistB"⟩] : List Chart) =
      [⟨2, "Quon", "BYD", "11", 1000, 11, "ArtistB"⟩] :=
  ⟨rfl, rfl, rfl⟩

/-- C6 (amended).  The resolver returns the first candidate surviving
the whole filtering pipeline (title restriction, then the Quon artist
narrowing, then the difficulty filter) paired with the distance of the
initial title pass — the distance is unaffected by the narrowing and
filtering — and it fails with MatchNotFound exactly when no candidate
survives that pipeline (which, because the artist narrowing runs before
the difficulty filter, is not the same as no entry of the winning title
having the parsed difficulty). -/
theorem c6_resolver_contract :
    ∀ (catalog : List Chart) (name difficulty : String) (artist : Option String),
      (∀ (c : Chart) (dist : Nat) (chart : Chart) (dst : Nat),
        closest_string name catalog (fun ch => ch.title) = (some c, some dist) →
        find_chart_by_name catalog name difficulty artist = .ok (chart, dst) →
        dst = dist ∧
          ∃ rest, resolveCandidates catalog difficulty artist c = .ok (chart :: rest)) ∧
      (find_chart_by_name catalog name difficulty artist = .error .matchNotFound ↔
        ∃ c dist,
          closest_string name catalog (fun ch => ch.title) = (some c, some dist) ∧
          resolveCandidates catalog difficulty artist c = .ok []) := by
  intro catalog name difficulty artist
  constructor
  · intro c dist chart dst hcs hfind
    unfold find_chart_by_name at hfind
    rw [hcs] at hfind
    simp only [] at hfind
    rcases hrc : resolveCandidates catalog difficulty artist c with e | survivors
    · rw [hrc] at hfind
      exact Except.noConfusion hfind
    · rw [hrc] at hfind
      simp only [] at hfind
      rcases survivors with - | ⟨s, rest⟩
      · exact Except.noConfusion hfind
      · simp only [List.head?] at hfind
        injection hfind with h2
        injection h2 with hchart hdst
        exact ⟨hdst.symm, rest, by rw [hchart]⟩
  · constructor
    · intro h
      unfold find_chart_by_name at h
      rcases hcs : closest_string name catalog (fun ch => ch.title) with ⟨oc, od⟩
      rw [hcs] at h
      rcases oc with - | c
      · rcases od with - | dist <;> simp only [] at h <;>
          exact absurd (Except.error.inj h) (by simp)
      · rcases od with - | dist
        · simp only [] at h
          exact absurd (Except.error.inj h) (by simp)
        · simp only [] at h
          rcases hrc : resolveCandidates catalog difficulty artist c with e | survivors
          · rw [hrc] at h
            simp only [] at h
            have he := Except.error.inj h
            exact absurd (he ▸ hrc) (resolveCandidates_ne_matchNotFound catalog difficulty artist c)
          · rw [hrc] at h
            simp only [] at h
            rcases survivors with - | ⟨s, rest⟩
            · exact ⟨c, dist, rfl, hrc⟩
            · simp only [List.head?] at h
              exact Except.noConfusion h
    · rintro ⟨c, dist, hcs, hrc⟩
      unfold find_chart_by_name
      rw [hcs]
      simp only []
      rw [hrc]
      rfl

set_option maxRecDepth 8000 in
/-- C6 witness: the theorem's success contract applied to a one-chart
catalog resolved exactly. -/
theorem c6_witness :
    (0 : Nat) = 0 ∧
    ∃ rest,
      resolveCandidates [⟨1, "Quon", "FTR", "10", 900, 10, "A"⟩] "FTR" none
          ⟨1, "Quon", "FTR", "10", 900, 10, "A"⟩ =
        .ok (⟨1, "Quon", "FTR", "10", 900, 10, "A"⟩ :: rest) :=
  (c6_resolver_contract [⟨1, "Quon", "FTR", "10", 900, 10, "A"⟩] "Quon" "FTR" none).1
    ⟨1, "Quon", "FTR", "10", 900, 10, "A"⟩ 0 ⟨1, "Quon", "FTR", "10", 900, 10, "A"⟩ 0
    rfl rfl

/-! ## Concrete test environments for the controller claims -/

/-- A one-chart catalog entry used by the concrete scenarios. -/
def quonChart : Chart := ⟨1, "Quon", "FTR", "10", 900, 10, "A"⟩

/-- An OCR oracle describing a result screen for a BYD play of
`"Quon"`; the catalog only has the FTR chart. -/
def resultMismatchOcr : Ocr := fun _ region _ =>
  if region = [0, 0, 320, 75] then "Result"
  else if region = [300, 320, 1200, 110] then "Quon"
  else if region = [850, 675, 470, 120] then "9000000"
  else if region = [380, 590, 130, 50] then "42"
  else "BEYOND"

/-- Environment whose single image resolves to MatchNotFound. -/
def envC2 : Env :=
  ⟨[quonChart], resultMismatchOcr, fun _ => true, "/data", "2024-01-01_00-00-00"⟩

/-- An OCR oracle whose `"bad.png"` image is a result screen with a
non-numeric score region, and whose other images are clean song-select
screens for `"Quon"`. -/
def parseFailOcr : Ocr := fun image region _ =>
  if image = "bad.png" then
    if region = [0, 0, 320, 75] then "Result"
    else if region = [300, 320, 1200, 110] then "Quon"
    else "oops"
  else
    if region = [0, 0, 320, 75] then "Select a Song"
    else if region = [10, 360, 1100, 80] then "Quon"
    else "9990000"

/-- Environment with one unparsable image and one clean image. -/
def envC3 : Env :=
  ⟨[quonChart], parseFailOcr, fun _ => true, "/data", "2024-01-01_00-00-00"⟩

/-- The same environment with no input file present on disk. -/
def envNoFiles : Env :=
  ⟨[quonChart], parseFailOcr, fun _ => false, "/data", "2024-01-01_00-00-00"⟩

/-- An OCR oracle reading a song-select screen whose title region is
garbage at distance 12 from the only catalog title. -/
def farTitleOcr : Ocr := fun _ region _ =>
  if region = [0, 0, 320, 75] then "Select a Song"
  else if region = [10, 360, 1100, 80] then "AAAAAAAAAAAA"
  else "9000000"

/-- Environment whose single image resolves at distance 12 (≥ 8). -/
def envC2W : Env :=
  ⟨[quonChart], farTitleOcr, fun _ => true, "/data", "2024-01-01_00-00-00"⟩

set_option maxRecDepth 8000 in
/-- C2 counterexample: the claim says an image whose resolution fails
with MatchNotFound is quarantined (with a diagnostic) and processing
continues; in the code the `IndexError` is uncaught, so the batch
aborts with no quarantine copy and no diagnostic. -/
theorem c2_counterexample :
    add_scores envC2 1 ["img.png"] = .error (.matchNotFound, initialRunState) ∧
    initialRunState.copies = [] ∧ initialRunState.logs = [] :=
  ⟨rfl, rfl, rfl⟩

/-- C2 (amended).  For an image that exists, parses, and resolves with
distance ≥ 8, the controller writes no score row, copies the image to
the quarantine destination built from the timestamp and user id, logs
the confused-path diagnostic, and continues with the next image; but an
image whose resolution fails with MatchNotFound aborts the whole batch
(the error propagates; nothing is copied or logged for it). -/
theorem c2_quarantine_or_abort :
    ∀ (env : Env) (user_id : Nat) (st : RunState) (f : String) (pr : ParsedResult),
      env.fileExists f = true →
      parse_score_image env.ocr env.catalog f = .ok pr →
      (∀ (chart : Chart) (distance : Nat),
        find_chart_by_name env.catalog pr.name pr.difficulty pr.artist = .ok (chart, distance) →
        8 ≤ distance →
        ∃ st2,
          add_scores_step env user_id st f = .ok st2 ∧
          st2.scores = st.scores ∧
          st2.added = st.added ∧
          st2.copies = st.copies ++ [(f, quarantine_destination env user_id f)] ∧
          st2.logs = st.logs ++
            [confused_message pr distance (quarantine_destination env user_id f)] ∧
          ∀ fs, add_scores_run env user_id (f :: fs) st = add_scores_run env user_id fs st2) ∧
      (find_chart_by_name env.catalog pr.name pr.difficulty pr.artist = .error .matchNotFound →
        ∀ fs, add_scores_run env user_id (f :: fs) st = .error (.matchNotFound, st)) := by
  intro env user_id st f pr hex hparse
  constructor
  · intro chart distance hfind hd
    have hstep : add_scores_step env user_id st f =
        .ok { st with
              copies := st.copies ++ [(f, quarantine_destination env user_id f)],
              logs := st.logs ++
                [confused_message pr distance (quarantine_destination env user_id f)] } := by
      unfold add_scores_step
      rw [hex]
      simp only [Bool.true_eq_false, if_false, hparse]
      rw [hfind]
      simp only []
      rw [if_neg (by omega)]
    refine ⟨_, hstep, rfl, rfl, rfl, rfl, ?_⟩
    intro fs
    show add_scores_run env user_id (f :: fs) st = _
    conv_lhs => rw [add_scores_run]
    rw [hstep]
  · intro hfind fs
    have hstep : add_scores_step env user_id st f = .error .matchNotFound := by
      unfold add_scores_step
      rw [hex]
      simp only [Bool.true_eq_false, if_false, hparse]
      rw [hfind]
    conv_lhs => rw [add_scores_run]
    rw [hstep]

set_option maxRecDepth 8000 in
/-- C2 witness: the distance-12 environment quarantines its image with
the exact destination and diagnostic, writing nothing. -/
theorem c2_witness :
    ∃ st2,
      add_scores_step envC2W 1 initialRunState "img.png" = .ok st2 ∧
      st2.scores = initialRunState.scores ∧
      st2.added = initialRunState.added ∧
      st2.copies = initialRunState.copies ++
        [("img.png", quarantine_destination envC2W 1 "img.png")] ∧
      st2.logs = initialRunState.logs ++
        [confused_message ⟨"AAAAAAAAAAAA", 9000000, "FTR", none, none⟩ 12
          (quarantine_destination envC2W 1 "img.png")] ∧
      ∀ fs, add_scores_run envC2W 1 ("img.png" :: fs) initialRunState =
        add_scores_run envC2W 1 fs st2 :=
  (c2_quarantine_or_abort envC2W 1 initialRunState "img.png"
      ⟨"AAAAAAAAAAAA", 9000000, "FTR", none, none⟩ rfl rfl).1
    quonChart 12 rfl (by omega)

set_option maxRecDepth 8000 in
/-- C3 counterexample: the claim says a ParseError is caught at the
controller boundary and the batch continues; in the code the
`ValueError` is uncaught, so a batch with one unparsable image and one
clean image aborts with nothing processed, while the clean image alone
would have been inserted. -/
theorem c3_counterexample :
    add_scores envC3 1 ["bad.png", "good.png"] = .error (.parseError, initialRunState) ∧
    add_scores envC3 1 ["good.png"] =
      .ok ⟨[⟨1, 1, 1, "Quon", none, 9990000⟩], 2, [], [], [(quonChart, 1, 9990000)]⟩ :=
  ⟨rfl, rfl⟩

/-- C3 (amended).  A missing input file is skipped with the diagnostic
and the batch continues with the remaining images; but a ParseError
raised while parsing one image is not caught anywhere: it propagates
out of the controller and aborts the batch. -/
theorem c3_skip_missing_abort_on_parse_error :
    ∀ (env : Env) (user_id : Nat) (st : RunState) (f : String) (fs : List String),
      (env.fileExists f = false →
        add_scores_run env user_id (f :: fs) st =
          add_scores_run env user_id fs
            { st with logs := st.logs ++ ["Skipping non-existent " ++ f] }) ∧
      (env.fileExists f = true →
        parse_score_image env.ocr env.catalog f = .error .parseError →
        add_scores_run env user_id (f :: fs) st = .error (.parseError, st)) := by
  intro env user_id st f fs
  constructor
  · intro hex
    have hstep : add_scores_step env user_id st f =
        .ok { st with logs := st.logs ++ ["Skipping non-existent " ++ f] } := by
      unfold add_scores_step
      rw [hex]
      simp only [if_true]
    conv_lhs => rw [add_scores_run]
    rw [hstep]
  · intro hex hparse
    have hstep : add_scores_step env user_id st f = .error .parseError := by
      unfold add_scores_step
      rw [hex]
      simp only [Bool.true_eq_false, if_false, hparse]
    conv_lhs => rw [add_scores_run]
    rw [hstep]

set_option maxRecDepth 8000 in
/-- C3 witness: a missing file is skipped with the diagnostic, and the
unparsable image aborts its batch. -/
theorem c3_witness :
    add_scores_run envNoFiles 1 ["missing.png"] initialRunState =
      add_scores_run envNoFiles 1 []
        { initialRunState with
          logs := initialRunState.logs ++ ["Skipping non-existent " ++ "missing.png"] } ∧
    add_scores_run envC3 1 ["bad.png"] initialRunState =
      .error (.parseError, initialRunState) :=
  ⟨(c3_skip_missing_abort_on_parse_error envNoFiles 1 initialRunState "missing.png" []).1 rfl,
   (c3_skip_missing_abort_on_parse_error envC3 1 initialRunState "bad.png" []).2 rfl rfl⟩

end Shimmering
